import Mathlib

/-!
# go-remember: a caching `http.RoundTripper` backed by bbolt

A shallow embedding of `remember.go` and proofs about it.

Go values behind pointers are threaded explicitly: a function that mutates
`*Memory`, `*bolt.DB` or `*http.Response` returns the updated value.  A nil
pointer is `none`; dereferencing it is the outcome `Ret.panic`.

The packages the file imports are not part of the repository.  They appear as
follows.

* `net/url`, `encoding/gob`: the functions used (`URL.MarshalBinary`,
  `Encoder.Encode`, `Decoder.Decode`) are the fields of `Env`, a parameter of
  every function that calls them.
* `go.etcd.io/bbolt`: one database with the single bucket `memory`, modelled
  by `DB`, `Bucket`, `DB.View`, `DB.Update`.
* `net/http`: `Request`, `Response`, `Client` are records of the fields the
  program touches; a `RoundTripper` implemented elsewhere is a function of the
  requests it has received so far.
* `log`: output is not modelled.
-/

namespace Remember

/-- Byte sequences (`[]byte`); the program never inspects a byte. -/
abbrev Bytes := List Nat

/-- Go `error` values: a basic error, or `fmt.Errorf(pre + "%w", inner)`. -/
inductive Error where
  | new (text : String)
  | wrap (pre : String) (inner : Error)
  deriving DecidableEq, Repr

/-- How a Go call of result type `(α, error)` ends: it returns a value with a
nil error, returns an error (with the zero value, `nil` for a pointer), or
panics. -/
inductive Ret (α : Type) where
  | val (a : α)
  | err (e : Error)
  | panic
  deriving DecidableEq, Repr

/-- The fields of `url.URL`. -/
structure URL where
  Scheme : String
  Opaque : String
  Host : String
  Path : String
  RawQuery : String
  Fragment : String
  deriving DecidableEq, Repr

/-- The type `http.Header`, `map[string][]string`. -/
abbrev HeaderMap := List (String × List String)

/-- An `io.ReadCloser` and how far it has been read: `data` are the bytes not
yet read, after which reading ends with EOF (`err = none`) or with the read
error `err`; `closed` says whether `Close` has been called. -/
structure Reader where
  data : Bytes
  err : Option Error
  closed : Bool := false
  deriving DecidableEq, Repr

/-- The call `ioutil.ReadAll(r)`: the bytes read, the error if any, and the
reader after the call, which has no unread bytes left. -/
def ReadAll (r : Reader) : Bytes × Option Error × Reader :=
  (r.data, r.err, { r with data := [] })

/-- The call `r.Close()`: the reader after the call. -/
def Reader.Close (r : Reader) : Reader := { r with closed := true }

/-- The expression `ioutil.NopCloser(bytes.NewReader(b))`: an unread, open
reader over `b` that ends with EOF. -/
def NopCloser (b : Bytes) : Reader := { data := b, err := none, closed := false }

/-- The fields of `http.Request` a caller sets. -/
structure Request where
  Method : String
  URL : Option URL
  Header : HeaderMap
  Body : Option Reader
  deriving DecidableEq, Repr

/-- The type `http.Response`. -/
structure Response where
  Status : String
  StatusCode : Int
  Proto : String
  ProtoMajor : Int
  ProtoMinor : Int
  Header : HeaderMap
  Body : Option Reader
  ContentLength : Int
  TransferEncoding : List String
  Close : Bool
  Uncompressed : Bool
  Trailer : HeaderMap
  Request : Option Request
  TLS : Option String
  deriving DecidableEq, Repr

/-- The record that is gob-encoded into the store. -/
structure RememberedResponse where
  Status : String
  StatusCode : Int
  Proto : String
  ProtoMajor : Int
  ProtoMinor : Int
  Header : HeaderMap
  Body : Bytes
  TransferEncoding : List String
  Trailer : HeaderMap
  Request : Option Request
  deriving DecidableEq, Repr

/-- The library functions the program calls on values it cannot look into. -/
structure Env where
  /-- The method `(*url.URL).MarshalBinary`. -/
  MarshalBinary : URL → Except Error Bytes
  /-- A fresh `gob.Encoder` writing one `*RememberedResponse` to a buffer. -/
  gobEncode : RememberedResponse → Except Error Bytes
  /-- A fresh `gob.Decoder` reading one `RememberedResponse` from bytes. -/
  gobDecode : Bytes → Except Error RememberedResponse

/-- What `encoding/gob` promises: a value it encoded decodes, and the decoded
record has the same contents in every field other than `Request` (of a
request gob transmits the exported, non-function fields only). -/
def Env.GobRoundTrip (env : Env) : Prop :=
  ∀ rr v, env.gobEncode rr = .ok v →
    ∃ rr2, env.gobDecode v = .ok rr2 ∧
      rr2.Status = rr.Status ∧ rr2.StatusCode = rr.StatusCode ∧
      rr2.Proto = rr.Proto ∧ rr2.ProtoMajor = rr.ProtoMajor ∧
      rr2.ProtoMinor = rr.ProtoMinor ∧ rr2.Header = rr.Header ∧
      rr2.Body = rr.Body ∧ rr2.TransferEncoding = rr.TransferEncoding ∧
      rr2.Trailer = rr.Trailer

/-! ## bbolt -/

/-- A bbolt bucket holding plain key/value pairs. -/
structure Bucket where
  entries : List (Bytes × Bytes)
  deriving DecidableEq, Repr

def lookup (key : Bytes) : List (Bytes × Bytes) → Option Bytes
  | [] => none
  | (k, v) :: rest => if k = key then some v else lookup key rest

def insert (key value : Bytes) : List (Bytes × Bytes) → List (Bytes × Bytes)
  | [] => [(key, value)]
  | (k, v) :: rest =>
    if k = key then (key, value) :: rest else (k, v) :: insert key value rest

/-- The method `(*Bucket).Get`: `none` is Go's nil slice, "key does not exist". -/
def Bucket.Get (b : Bucket) (key : Bytes) : Option Bytes := lookup key b.entries

def MaxKeySize : Nat := 32768

def MaxValueSize : Nat := 2 ^ 31 - 2

def ErrKeyRequired : Error := .new "key required"

def ErrKeyTooLarge : Error := .new "key too large"

def ErrValueTooLarge : Error := .new "value too large"

/-- The method `(*Bucket).Put` inside a writable transaction. -/
def Bucket.Put (b : Bucket) (key value : Bytes) : Except Error Bucket :=
  if key.length = 0 then .error ErrKeyRequired
  else if key.length > MaxKeySize then .error ErrKeyTooLarge
  else if value.length > MaxValueSize then .error ErrValueTooLarge
  else .ok { entries := insert key value b.entries }

/-- An open `*bolt.DB`.  `memory` is the bucket named `memory`, `none` while it
does not exist.  `faults` says how the coming commits of write transactions
end: `some e` is a commit that fails with the I/O error `e`; past the end of
the list every commit succeeds. -/
structure DB where
  memory : Option Bucket
  faults : List (Option Error)
  deriving DecidableEq, Repr

/-- The call `db.View(fn)`: `fn` sees the committed state and what it returns
is returned. -/
def DB.View {α : Type} (db : DB) (fn : Option Bucket → Ret α) : Ret α :=
  fn db.memory

/-- The call `db.Update(fn)`: `fn` works on the transaction's copy of the
bucket and returns that copy when it returns nil.  An error or a panic of `fn`
rolls back; otherwise the transaction commits, which fails when the next
entry of `faults` says so. -/
def DB.Update (db : DB) (fn : Option Bucket → Ret (Option Bucket)) : Ret Unit × DB :=
  match fn db.memory with
  | .val root =>
    match db.faults with
    | some e :: rest => (.err e, { db with faults := rest })
    | none :: rest => (.val (), { memory := root, faults := rest })
    | [] => (.val (), { db with memory := root })
  | .err e => (.err e, db)
  | .panic => (.panic, db)

/-- The call `tx.CreateBucketIfNotExists(memoryBucket)` in a writable
transaction; for a non-empty name it cannot fail. -/
def CreateBucketIfNotExists (root : Option Bucket) : Except Error (Option Bucket) :=
  match root with
  | some b => .ok (some b)
  | none => .ok (some { entries := [] })

/-! ## net/http -/

/-- An `http.RoundTripper` implemented outside this package: `respond` gives
the outcome of a call from the calls made before it, `calls` are the calls
made so far. -/
structure RoundTripper where
  calls : List Request
  respond : List Request → Request → Ret Response

/-- One call of the upstream `RoundTrip`. -/
def RoundTripper.RoundTrip (rt : RoundTripper) (req : Request) : Ret Response × RoundTripper :=
  (rt.respond rt.calls req, { rt with calls := rt.calls ++ [req] })

/-! ## remember.go -/

/-- The type `Memory`: the state of the database behind `bdb` and the upstream. -/
structure Memory where
  bdb : DB
  defaultRT : RoundTripper

/-- The function `New`.  `opened` is what `bolt.Open(memoryDB, 0600, nil)` returns
and `DefaultTransport` the value of `http.DefaultTransport`. -/
def New (opened : Except Error DB) (DefaultTransport : RoundTripper)
    (rt : Option RoundTripper) : Except Error Memory :=
  match opened with
  | .error err => .error (.wrap "unable to open boltdb file: " err)
  | .ok db =>
    -- err = db.Update(...): the error is assigned and never read
    let upd := db.Update fun root =>
      match CreateBucketIfNotExists root with
      | .error err => .err (.wrap "failed updating bucket: " err)
      | .ok root => .val root
    let rt := match rt with
      | none => DefaultTransport
      | some rt => rt
    .ok { bdb := upd.2, defaultRT := rt }

/-- The method `fetchResponse`: `.val none` is the result `(nil, nil)`, a miss. -/
def fetchResponse (env : Env) (bdb : DB) (u : Option URL) : Ret (Option Response) :=
  match u with
  | none => .panic
  | some u =>
    match env.MarshalBinary u with
    | .error err => .err err
    | .ok ub =>
      -- the closure's result: `found` and `rr`
      let view : Ret (Option RememberedResponse) := bdb.View fun root =>
        match root with
        | none => .panic
        | some b =>
          match b.Get ub with
          | none => .val none
          | some v =>
            match env.gobDecode v with
            | .error err => .err err
            | .ok rr => .val (some rr)
      match view with
      | .panic => .panic
      | .err err => .err err
      | .val none => .val none
      | .val (some rr) =>
        .val (some {
          Status := rr.Status
          StatusCode := rr.StatusCode
          Proto := rr.Proto
          ProtoMajor := rr.ProtoMajor
          ProtoMinor := rr.ProtoMinor
          Header := rr.Header
          Body := some (NopCloser rr.Body)
          ContentLength := rr.Body.length
          TransferEncoding := rr.TransferEncoding
          Close := false
          Uncompressed := true
          Trailer := rr.Trailer
          Request := rr.Request
          TLS := none })

/-- The record `storeResponse` builds from the response and the body it read. -/
def snapshot (resp : Response) (body : Bytes) : RememberedResponse :=
  { Status := resp.Status
    StatusCode := resp.StatusCode
    Proto := resp.Proto
    ProtoMajor := resp.ProtoMajor
    ProtoMinor := resp.ProtoMinor
    Header := resp.Header
    Body := body
    TransferEncoding := resp.TransferEncoding
    Trailer := resp.Trailer
    Request := resp.Request }

/-- The closure `storeResponse` passes to `Update`. -/
def storeTx (env : Env) (resp : Response) (rr : RememberedResponse)
    (root : Option Bucket) : Ret (Option Bucket) :=
  match env.gobEncode rr with
  | .error err => .err (.wrap "unable to encode RememberedResponse: " err)
  | .ok b =>
    match resp.Request with
    | none => .panic
    | some rq =>
      match rq.URL with
      | none => .panic
      | some u =>
        match env.MarshalBinary u with
        | .error err => .err err
        | .ok ub =>
          match root with
          | none => .panic
          | some bucket =>
            match bucket.Put ub b with
            | .error err => .err (.wrap "failed to put in bucket: " err)
            | .ok bucket => .val (some bucket)

/-- The result is the error or panic, the response as `storeResponse` leaves
it behind the caller's pointer, and the database.  `ReadAll` drains the reader
in `resp.Body`; on a read error the response keeps that drained reader. -/
def storeResponse (env : Env) (bdb : DB) (resp : Response) : Ret Unit × Response × DB :=
  match resp.Body with
  | none => (.panic, resp, bdb)
  | some rd =>
    match ReadAll rd with
    | (_, some err, rd) =>
      (.err (.wrap "unable to read response body: " err), { resp with Body := some rd }, bdb)
    | (body, none, rd) =>
      -- resp.Body.Close()
      let resp := { resp with Body := some rd.Close }
      -- resp.Body = ioutil.NopCloser(bytes.NewReader(body))
      let resp := { resp with Body := some (NopCloser body) }
      let rr := snapshot resp body
      match bdb.Update (storeTx env resp rr) with
      | (.panic, bdb) => (.panic, resp, bdb)
      | (.err err, bdb) => (.err (.wrap "unable to store response: " err), resp, bdb)
      | (.val _, bdb) => (.val (), resp, bdb)

/-- The method `RoundTrip`: what it returns, and the `Memory` after the call. -/
def Memory.RoundTrip (env : Env) (m : Memory) (req : Request) : Ret Response × Memory :=
  match fetchResponse env m.bdb req.URL with
  | .panic => (.panic, m)
  | .err err => (.err (.wrap "fetch error: " err), m)
  | .val (some resp) => (.val resp, m)
  | .val none =>
    match m.defaultRT.RoundTrip req with
    | (.panic, rt) => (.panic, { m with defaultRT := rt })
    | (.err err, rt) =>
      (.err (.wrap "default round tripper error: " err), { m with defaultRT := rt })
    | (.val resp, rt) =>
      match storeResponse env m.bdb resp with
      | (.panic, _, bdb) => (.panic, { bdb := bdb, defaultRT := rt })
      | (.err err, _, bdb) => (.err err, { bdb := bdb, defaultRT := rt })
      | (.val _, resp, bdb) => (.val resp, { bdb := bdb, defaultRT := rt })

/-- The state of `m` after it has served the requests `hist` in order. -/
def Memory.after (env : Env) (m : Memory) : List Request → Memory
  | [] => m
  | r :: rest => Memory.after env (Memory.RoundTrip env m r).2 rest

/-- A value of the interface type `http.RoundTripper`, by dynamic type. -/
inductive Transport where
  | other (rt : RoundTripper)
  | memory (m : Memory)

/-- Passing a `Transport` where an upstream `http.RoundTripper` is expected.
A `*Memory` answers a call as `Memory.RoundTrip` does after the earlier
calls. -/
def Transport.upstream (env : Env) : Transport → RoundTripper
  | .other rt => rt
  | .memory m =>
    { calls := []
      respond := fun hist req => (Memory.RoundTrip env (Memory.after env m hist) req).1 }

/-- The fields of `http.Client`. -/
structure Client where
  Transport : Option Transport
  CheckRedirect : Option Nat
  Jar : Option Nat
  Timeout : Int

/-- The function `AddMemory`: the client and the error it returns. -/
def AddMemory (env : Env) (opened : Except Error DB) (DefaultTransport : RoundTripper)
    (client : Client) : Client × Option Error :=
  match New opened DefaultTransport (client.Transport.map (Transport.upstream env)) with
  | .error err => (client, some err)
  | .ok transport => ({ client with Transport := some (.memory transport) }, none)

/-! ## Concrete values used to instantiate the theorems -/

/-- A rendering of a URL in the manner of `URL.String`, as bytes. -/
def demoMarshal (u : URL) : Except Error Bytes :=
  .ok ((u.Scheme.toList ++ "://".toList ++ u.Host.toList ++ u.Path.toList).map Char.toNat)

def urlA : URL :=
  { Scheme := "https", Opaque := "", Host := "go.dev", Path := "/a", RawQuery := "", Fragment := "" }

def urlB : URL :=
  { Scheme := "https", Opaque := "", Host := "go.dev", Path := "/b", RawQuery := "", Fragment := "" }

def reqA : Request := { Method := "GET", URL := some urlA, Header := [], Body := none }

def reqB : Request := { Method := "GET", URL := some urlB, Header := [], Body := none }

/-- A 200 response to `rq` with body `hello`. -/
def respTo (rq : Request) : Response :=
  { Status := "200 OK", StatusCode := 200, Proto := "HTTP/1.1", ProtoMajor := 1, ProtoMinor := 1
    Header := [("Content-Type", ["text/plain"])]
    Body := some { data := [104, 101, 108, 108, 111], err := none }
    ContentLength := 5, TransferEncoding := [], Close := false, Uncompressed := false
    Trailer := [], Request := some rq, TLS := none }

/-- A writer and a reader for the values of one type. -/
structure Wire (α : Type) where
  put : α → Bytes
  get : Bytes → Option (α × Bytes)

/-- The reader returns what the writer wrote and leaves what follows it. -/
def Wire.Sound {α : Type} (w : Wire α) : Prop :=
  ∀ a rest, w.get (w.put a ++ rest) = some (a, rest)

def wireNat : Wire Nat :=
  { put := fun n => [n]
    get := fun bs =>
      match bs with
      | [] => none
      | n :: rest => some (n, rest) }

def wireInt : Wire Int :=
  { put := fun i => [if i < 0 then 1 else 0, i.natAbs]
    get := fun bs =>
      match bs with
      | s :: n :: rest => some (if s = 0 then (n : Int) else -(n : Int), rest)
      | _ => none }

def putMany {α : Type} (put : α → Bytes) : List α → Bytes
  | [] => []
  | a :: rest => put a ++ putMany put rest

def getMany {α : Type} (get : Bytes → Option (α × Bytes)) : Nat → Bytes → Option (List α × Bytes)
  | 0, bs => some ([], bs)
  | n + 1, bs =>
    match get bs with
    | none => none
    | some (a, bs) =>
      match getMany get n bs with
      | none => none
      | some (l, bs) => some (a :: l, bs)

/-- A list: its length, then its elements. -/
def wireList {α : Type} (w : Wire α) : Wire (List α) :=
  { put := fun l => l.length :: putMany w.put l
    get := fun bs =>
      match bs with
      | [] => none
      | n :: rest => getMany w.get n rest }

def wireString : Wire String :=
  { put := fun s => (wireList wireNat).put (s.toList.map Char.toNat)
    get := fun bs =>
      match (wireList wireNat).get bs with
      | none => none
      | some (l, rest) => some (String.mk (l.map Char.ofNat), rest) }

def wirePair {α β : Type} (w1 : Wire α) (w2 : Wire β) : Wire (α × β) :=
  { put := fun p => w1.put p.1 ++ w2.put p.2
    get := fun bs =>
      match w1.get bs with
      | none => none
      | some (a, bs) =>
        match w2.get bs with
        | none => none
        | some (b, bs) => some ((a, b), bs) }

/-- A pointer: 0 for nil, 1 and the value otherwise. -/
def wireOption {α : Type} (w : Wire α) : Wire (Option α) :=
  { put := fun o =>
      match o with
      | none => [0]
      | some a => 1 :: w.put a
    get := fun bs =>
      match bs with
      | 0 :: rest => some (none, rest)
      | 1 :: rest =>
        match w.get rest with
        | none => none
        | some (a, rest) => some (some a, rest)
      | _ => none }

def wireHeader : Wire HeaderMap := wireList (wirePair wireString (wireList wireString))

/-- What the codec transmits of a URL. -/
abbrev URLFields := String × String × String × String × String × String

/-- What the codec transmits of a request: method, URL and header, not the body. -/
abbrev RequestFields := String × Option URLFields × HeaderMap

/-- What the codec transmits of a `RememberedResponse`. -/
abbrev RecordFields :=
  String × Int × String × Int × Int × HeaderMap × Bytes × List String × HeaderMap ×
    Option RequestFields

def wireRecord : Wire RecordFields :=
  wirePair wireString (wirePair wireInt (wirePair wireString (wirePair wireInt
    (wirePair wireInt (wirePair wireHeader (wirePair (wireList wireNat)
      (wirePair (wireList wireString) (wirePair wireHeader
        (wireOption (wirePair wireString
          (wirePair
            (wireOption (wirePair wireString (wirePair wireString (wirePair wireString
              (wirePair wireString (wirePair wireString wireString))))))
            wireHeader)))))))))))

def toFields (rr : RememberedResponse) : RecordFields :=
  (rr.Status, rr.StatusCode, rr.Proto, rr.ProtoMajor, rr.ProtoMinor, rr.Header, rr.Body,
    rr.TransferEncoding, rr.Trailer,
    rr.Request.map fun rq =>
      (rq.Method,
        rq.URL.map (fun u => (u.Scheme, u.Opaque, u.Host, u.Path, u.RawQuery, u.Fragment)),
        rq.Header))

def ofFields (t : RecordFields) : RememberedResponse :=
  { Status := t.1
    StatusCode := t.2.1
    Proto := t.2.2.1
    ProtoMajor := t.2.2.2.1
    ProtoMinor := t.2.2.2.2.1
    Header := t.2.2.2.2.2.1
    Body := t.2.2.2.2.2.2.1
    TransferEncoding := t.2.2.2.2.2.2.2.1
    Trailer := t.2.2.2.2.2.2.2.2.1
    Request := t.2.2.2.2.2.2.2.2.2.map fun q =>
      { Method := q.1
        URL := q.2.1.map fun f =>
          { Scheme := f.1, Opaque := f.2.1, Host := f.2.2.1, Path := f.2.2.2.1
            RawQuery := f.2.2.2.2.1, Fragment := f.2.2.2.2.2 }
        Header := q.2.2
        Body := none } }

/-- An instance of `Env`: URLs are rendered as text, records are written field
by field, and the decoder wants exactly one record. -/
def demoEnv : Env :=
  { MarshalBinary := demoMarshal
    gobEncode := fun rr => .ok (wireRecord.put (toFields rr))
    gobDecode := fun v =>
      match wireRecord.get v with
      | some (t, []) => .ok (ofFields t)
      | some (_, _ :: _) => .error (.new "gob: extra data in buffer")
      | none => .error (.new "gob: unexpected EOF") }

/-- An upstream that answers every request with `respTo` of that request. -/
def echoRT : RoundTripper := { calls := [], respond := fun _ rq => .val (respTo rq) }

/-- An upstream that fails every request. -/
def downRT : RoundTripper :=
  { calls := [], respond := fun _ _ => .err (.new "dial tcp: connection refused") }

/-- An upstream that answers every request as if it had been sent to `urlB`. -/
def rewriteRT : RoundTripper := { calls := [], respond := fun _ _ => .val (respTo reqB) }

def emptyDB : DB := { memory := some { entries := [] }, faults := [] }

/-- A database whose entry for `urlA` is not a gob stream. -/
def corruptDB : DB :=
  { memory := some { entries :=
      [([104, 116, 116, 112, 115, 58, 47, 47, 103, 111, 46, 100, 101, 118, 47, 97], [255, 0])] }
    faults := [] }

/-- A database as `bolt.Open` returns it for a new file on a full disk: no
bucket yet, and the first commit fails. -/
def fullDiskDB : DB :=
  { memory := none, faults := [some (.new "write memory.bdb: no space left on device")] }

/-- The response `respTo rq` with a body that fails while it is read. -/
def brokenBody (rq : Request) : Response :=
  { respTo rq with Body := some { data := [104, 101], err := some (.new "unexpected EOF") } }

/-- An upstream whose response bodies fail while they are read. -/
def brokenRT : RoundTripper := { calls := [], respond := fun _ rq => .val (brokenBody rq) }

/-- A request for `urlA` that differs from `reqA` in method, header and body. -/
def postA : Request :=
  { Method := "POST", URL := some urlA, Header := [("Authorization", ["Bearer x"])]
    Body := some { data := [1, 2, 3], err := none } }

/-- A database holding the encoding of `respTo reqA` under the key of `urlA`. -/
def storedDB : DB := (storeResponse demoEnv emptyDB (respTo reqA)).2.2

def plainClient : Client :=
  { Transport := none, CheckRedirect := none, Jar := none, Timeout := 0 }

/-! ## Lemmas -/

theorem lookup_insert_self (key value : Bytes) (l : List (Bytes × Bytes)) :
    lookup key (insert key value l) = some value := by
  induction l with
  | nil => simp [insert, lookup]
  | cons p rest ih =>
    obtain ⟨k, v⟩ := p
    by_cases h : k = key
    · simp [insert, lookup, h]
    · simp [insert, lookup, h, ih]

theorem Put_Get (b b2 : Bucket) (key value : Bytes) (h : b.Put key value = .ok b2) :
    b2.Get key = some value := by
  unfold Bucket.Put at h
  split_ifs at h
  cases h
  simp [Bucket.Get, lookup_insert_self]

theorem Update_val (db : DB) (fn : Option Bucket → Ret (Option Bucket))
    (h : (db.Update fn).1 = .val ()) :
    ∃ root, fn db.memory = .val root ∧ (db.Update fn).2.memory = root := by
  unfold DB.Update at h ⊢
  cases hf : fn db.memory with
  | val root =>
    refine ⟨root, rfl, ?_⟩
    rw [hf] at h
    rcases hfa : db.faults with _ | ⟨_ | e, rest⟩ <;> simp [hfa] at h ⊢
  | err e => simp [hf] at h
  | panic => simp [hf] at h

theorem storeTx_val (env : Env) (resp : Response) (rr : RememberedResponse)
    (root r2 : Option Bucket) (h : storeTx env resp rr root = .val r2) :
    ∃ rq u ub v b b2,
      resp.Request = some rq ∧ rq.URL = some u ∧ env.MarshalBinary u = .ok ub ∧
      env.gobEncode rr = .ok v ∧ root = some b ∧ b.Put ub v = .ok b2 ∧ r2 = some b2 := by
  unfold storeTx at h
  cases hE : env.gobEncode rr with
  | error e => simp [hE] at h
  | ok v =>
    cases hR : resp.Request with
    | none => simp [hE, hR] at h
    | some rq =>
      cases hU : rq.URL with
      | none => simp [hE, hR, hU] at h
      | some u =>
        cases hM : env.MarshalBinary u with
        | error e => simp [hE, hR, hU, hM] at h
        | ok ub =>
          cases root with
          | none => simp [hE, hR, hU, hM] at h
          | some b =>
            cases hP : b.Put ub v with
            | error e => simp [hE, hR, hU, hM, hP] at h
            | ok b2 =>
              simp [hE, hR, hU, hM, hP] at h
              exact ⟨rq, u, ub, v, b, b2, rfl, hU, hM, rfl, rfl, hP, h.symm⟩

/-- The body of `storeResponse` once the response body has been read. -/
theorem storeResponse_read (env : Env) (bdb : DB) (resp : Response) (rd : Reader)
    (hB : resp.Body = some rd) (hr : rd.err = none) :
    storeResponse env bdb resp =
      match bdb.Update (storeTx env { resp with Body := some (NopCloser rd.data) }
        (snapshot resp rd.data)) with
      | (.panic, bdb) => (.panic, { resp with Body := some (NopCloser rd.data) }, bdb)
      | (.err err, bdb) =>
        (.err (.wrap "unable to store response: " err),
          { resp with Body := some (NopCloser rd.data) }, bdb)
      | (.val _, bdb) => (.val (), { resp with Body := some (NopCloser rd.data) }, bdb) := by
  obtain ⟨data, rerr, c⟩ := rd
  cases hr
  unfold storeResponse
  rw [hB]
  rfl

/-- What a successful `storeResponse` did. -/
theorem storeResponse_val (env : Env) (bdb : DB) (resp : Response)
    (h : (storeResponse env bdb resp).1 = .val ()) :
    ∃ rd rq u ub v b b2,
      resp.Body = some rd ∧ rd.err = none ∧ resp.Request = some rq ∧ rq.URL = some u ∧
      env.MarshalBinary u = .ok ub ∧ env.gobEncode (snapshot resp rd.data) = .ok v ∧
      bdb.memory = some b ∧ b.Put ub v = .ok b2 ∧
      (storeResponse env bdb resp).2.1 = { resp with Body := some (NopCloser rd.data) } ∧
      (storeResponse env bdb resp).2.2.memory = some b2 := by
  cases hB : resp.Body with
  | none => simp [storeResponse, hB] at h
  | some rd =>
    obtain ⟨data, rerr, c⟩ := rd
    cases rerr with
    | some e => simp [storeResponse, hB, ReadAll] at h
    | none =>
      rw [storeResponse_read env bdb resp ⟨data, none, c⟩ hB rfl] at h ⊢
      rcases hUp : bdb.Update (storeTx env { resp with Body := some (NopCloser data) }
        (snapshot resp data)) with ⟨r, db2⟩
      rw [hUp] at h
      cases r with
      | panic => simp at h
      | err e => simp at h
      | val a =>
        have h1 : (bdb.Update (storeTx env { resp with Body := some (NopCloser data) }
            (snapshot resp data))).1 = .val () := by rw [hUp]
        obtain ⟨root, hfn, hmem⟩ := Update_val _ _ h1
        obtain ⟨rq, u, ub, v, b, b2, hR, hU, hM, hE, hb, hP, hr⟩ := storeTx_val _ _ _ _ _ hfn
        refine ⟨⟨data, none, c⟩, rq, u, ub, v, b, b2, rfl, rfl, hR, hU, hM, hE, hb, hP, ?_, ?_⟩
        · rfl
        · rw [hUp] at hmem
          simpa [hr] using hmem

theorem fetchResponse_miss (env : Env) (bdb : DB) (u : URL) (key : Bytes) (b : Bucket)
    (hk : env.MarshalBinary u = .ok key) (hb : bdb.memory = some b) (hget : b.Get key = none) :
    fetchResponse env bdb (some u) = .val none := by
  simp [fetchResponse, DB.View, hk, hb, hget]

theorem fetchResponse_corrupt (env : Env) (bdb : DB) (u : URL) (key v : Bytes) (b : Bucket)
    (e : Error) (hk : env.MarshalBinary u = .ok key) (hb : bdb.memory = some b)
    (hget : b.Get key = some v) (hdec : env.gobDecode v = .error e) :
    fetchResponse env bdb (some u) = .err e := by
  simp [fetchResponse, DB.View, hk, hb, hget, hdec]

theorem fetchResponse_hit (env : Env) (bdb : DB) (u : URL) (key v : Bytes) (b : Bucket)
    (rr : RememberedResponse) (hk : env.MarshalBinary u = .ok key) (hb : bdb.memory = some b)
    (hget : b.Get key = some v) (hdec : env.gobDecode v = .ok rr) :
    fetchResponse env bdb (some u) = .val (some {
      Status := rr.Status
      StatusCode := rr.StatusCode
      Proto := rr.Proto
      ProtoMajor := rr.ProtoMajor
      ProtoMinor := rr.ProtoMinor
      Header := rr.Header
      Body := some (NopCloser rr.Body)
      ContentLength := rr.Body.length
      TransferEncoding := rr.TransferEncoding
      Close := false
      Uncompressed := true
      Trailer := rr.Trailer
      Request := rr.Request
      TLS := none }) := by
  simp [fetchResponse, DB.View, hk, hb, hget, hdec]

theorem RoundTrip_hit (env : Env) (m : Memory) (req : Request) (r : Response)
    (h : fetchResponse env m.bdb req.URL = .val (some r)) :
    Memory.RoundTrip env m req = (.val r, m) := by
  simp [Memory.RoundTrip, h]

theorem RoundTrip_fetch_err (env : Env) (m : Memory) (req : Request) (e : Error)
    (h : fetchResponse env m.bdb req.URL = .err e) :
    Memory.RoundTrip env m req = (.err (.wrap "fetch error: " e), m) := by
  simp [Memory.RoundTrip, h]

/-- On a miss the upstream is called, once, whatever happens next. -/
theorem RoundTrip_miss_calls (env : Env) (m : Memory) (req : Request)
    (h : fetchResponse env m.bdb req.URL = .val none) :
    (Memory.RoundTrip env m req).2.defaultRT.calls = m.defaultRT.calls ++ [req] := by
  unfold Memory.RoundTrip
  rw [h]
  simp only [RoundTripper.RoundTrip]
  cases m.defaultRT.respond m.defaultRT.calls req with
  | panic => rfl
  | err e => rfl
  | val resp =>
    dsimp only
    rcases storeResponse env m.bdb resp with ⟨r, resp2, db2⟩
    cases r <;> rfl

theorem RoundTrip_miss_err (env : Env) (m : Memory) (req : Request) (e : Error)
    (h : fetchResponse env m.bdb req.URL = .val none)
    (hup : m.defaultRT.respond m.defaultRT.calls req = .err e) :
    Memory.RoundTrip env m req =
      (.err (.wrap "default round tripper error: " e),
        { m with defaultRT := { m.defaultRT with calls := m.defaultRT.calls ++ [req] } }) := by
  simp [Memory.RoundTrip, h, RoundTripper.RoundTrip, hup]

/-- On a miss with an upstream response, `RoundTrip` ends as `storeResponse` does. -/
theorem RoundTrip_miss_store (env : Env) (m : Memory) (req : Request) (resp : Response)
    (h : fetchResponse env m.bdb req.URL = .val none)
    (hup : m.defaultRT.respond m.defaultRT.calls req = .val resp) :
    Memory.RoundTrip env m req =
      (match (storeResponse env m.bdb resp).1 with
        | .val _ => .val (storeResponse env m.bdb resp).2.1
        | .err e => .err e
        | .panic => .panic,
        { bdb := (storeResponse env m.bdb resp).2.2
          defaultRT := { m.defaultRT with calls := m.defaultRT.calls ++ [req] } }) := by
  unfold Memory.RoundTrip
  rw [h]
  simp only [RoundTripper.RoundTrip, hup]
  rcases storeResponse env m.bdb resp with ⟨r, resp2, db2⟩
  cases r <;> rfl

theorem wireNat_sound : wireNat.Sound := fun _ _ => rfl

theorem wireInt_sound : wireInt.Sound := by
  intro i rest
  by_cases h : i < 0
  · have hi : -(i.natAbs : Int) = i := by omega
    simp only [wireInt, h, if_true, List.cons_append, List.nil_append]
    rw [if_neg (by decide), hi]
  · have hi : (i.natAbs : Int) = i := by omega
    simp only [wireInt, h, if_false, List.cons_append, List.nil_append]
    rw [if_pos trivial, hi]

theorem getMany_putMany {α : Type} (w : Wire α) (hw : w.Sound) (l : List α) (rest : Bytes) :
    getMany w.get l.length (putMany w.put l ++ rest) = some (l, rest) := by
  induction l with
  | nil => rfl
  | cons a l ih =>
    simp only [putMany, List.length_cons, getMany, List.append_assoc, hw a, ih]

theorem wireList_sound {α : Type} (w : Wire α) (hw : w.Sound) : (wireList w).Sound := by
  intro l rest
  exact getMany_putMany w hw l rest

theorem wireString_sound : wireString.Sound := by
  intro s rest
  simp only [wireString, wireList_sound wireNat wireNat_sound _ rest, List.map_map]
  have : (Char.ofNat ∘ Char.toNat) = id := by
    funext c
    simp
  simp [this]

theorem wirePair_sound {α β : Type} (w1 : Wire α) (w2 : Wire β) (h1 : w1.Sound)
    (h2 : w2.Sound) : (wirePair w1 w2).Sound := by
  intro p rest
  simp only [wirePair, List.append_assoc, h1 p.1, h2 p.2]

theorem wireOption_sound {α : Type} (w : Wire α) (hw : w.Sound) : (wireOption w).Sound := by
  intro o rest
  cases o with
  | none => rfl
  | some a => simp only [wireOption, List.cons_append, hw a]

theorem wireHeader_sound : wireHeader.Sound :=
  wireList_sound _ (wirePair_sound _ _ wireString_sound (wireList_sound _ wireString_sound))

theorem wireRecord_sound : wireRecord.Sound := by
  have hs := wireString_sound
  have hi := wireInt_sound
  have hh := wireHeader_sound
  have hu : (wirePair wireString (wirePair wireString (wirePair wireString
      (wirePair wireString (wirePair wireString wireString))))).Sound :=
    wirePair_sound _ _ hs (wirePair_sound _ _ hs (wirePair_sound _ _ hs
      (wirePair_sound _ _ hs (wirePair_sound _ _ hs hs))))
  have hq := wireOption_sound _
    (wirePair_sound _ _ hs (wirePair_sound _ _ (wireOption_sound _ hu) hh))
  exact wirePair_sound _ _ hs (wirePair_sound _ _ hi (wirePair_sound _ _ hs
    (wirePair_sound _ _ hi (wirePair_sound _ _ hi (wirePair_sound _ _ hh
      (wirePair_sound _ _ (wireList_sound _ wireNat_sound)
        (wirePair_sound _ _ (wireList_sound _ hs) (wirePair_sound _ _ hh hq))))))))

theorem demoEnv_decode_encode (rr : RememberedResponse) :
    demoEnv.gobDecode (wireRecord.put (toFields rr)) = .ok (ofFields (toFields rr)) := by
  have h := wireRecord_sound (toFields rr) []
  rw [List.append_nil] at h
  simp only [demoEnv, h]

theorem demoEnv_gob : demoEnv.GobRoundTrip := by
  intro rr v h
  have hv : v = wireRecord.put (toFields rr) := by
    simp only [demoEnv] at h
    cases h
    rfl
  subst hv
  exact ⟨_, demoEnv_decode_encode rr, rfl, rfl, rfl, rfl, rfl, rfl, rfl, rfl, rfl⟩

/-- An error of the closure is the error of `Update`, wrapped by `storeResponse`. -/
theorem storeResponse_tx_err (env : Env) (bdb : DB) (resp : Response) (rd : Reader) (e : Error)
    (hB : resp.Body = some rd) (hr : rd.err = none)
    (htx : storeTx env { resp with Body := some (NopCloser rd.data) } (snapshot resp rd.data)
      bdb.memory = .err e) :
    (storeResponse env bdb resp).1 = .err (.wrap "unable to store response: " e) := by
  rw [storeResponse_read env bdb resp rd hB hr]
  simp [DB.Update, htx]

/-- Cause 1 of a failed store: reading the body fails. -/
theorem storeResponse_read_fails (env : Env) (bdb : DB) (resp : Response) (rd : Reader)
    (e : Error) (hB : resp.Body = some rd) (hr : rd.err = some e) :
    (storeResponse env bdb resp).1 = .err (.wrap "unable to read response body: " e) := by
  simp [storeResponse, hB, ReadAll, hr]

/-- Cause 2 of a failed store: gob refuses the record. -/
theorem storeResponse_encode_fails (env : Env) (bdb : DB) (resp : Response) (rd : Reader)
    (e : Error) (hB : resp.Body = some rd) (hr : rd.err = none)
    (hE : env.gobEncode (snapshot resp rd.data) = .error e) :
    (storeResponse env bdb resp).1 = .err (.wrap "unable to store response: "
      (.wrap "unable to encode RememberedResponse: " e)) := by
  apply storeResponse_tx_err env bdb resp rd _ hB hr
  simp [storeTx, hE]

/-- Cause 3 of a failed store: the URL of the response's request does not marshal. -/
theorem storeResponse_marshal_fails (env : Env) (bdb : DB) (resp : Response) (rd : Reader)
    (v : Bytes) (rq : Request) (u : URL) (e : Error)
    (hB : resp.Body = some rd) (hr : rd.err = none)
    (hE : env.gobEncode (snapshot resp rd.data) = .ok v)
    (hR : resp.Request = some rq) (hU : rq.URL = some u)
    (hM : env.MarshalBinary u = .error e) :
    (storeResponse env bdb resp).1 = .err (.wrap "unable to store response: " e) := by
  apply storeResponse_tx_err env bdb resp rd _ hB hr
  simp [storeTx, hE, hR, hU, hM]

/-- Cause 4 of a failed store: `Put` refuses the key or the value. -/
theorem storeResponse_put_fails (env : Env) (bdb : DB) (resp : Response) (rd : Reader)
    (v ub : Bytes) (rq : Request) (u : URL) (b : Bucket) (e : Error)
    (hB : resp.Body = some rd) (hr : rd.err = none)
    (hE : env.gobEncode (snapshot resp rd.data) = .ok v)
    (hR : resp.Request = some rq) (hU : rq.URL = some u)
    (hM : env.MarshalBinary u = .ok ub) (hb : bdb.memory = some b)
    (hP : b.Put ub v = .error e) :
    (storeResponse env bdb resp).1 = .err (.wrap "unable to store response: "
      (.wrap "failed to put in bucket: " e)) := by
  apply storeResponse_tx_err env bdb resp rd _ hB hr
  simp [storeTx, hE, hR, hU, hM, hb, hP]

/-! ## The claims -/

/-- C1 (miss then hit).  The key of `req` is absent from the bucket, the upstream
answers `req` with a response whose `Request` is `req`, and `storeResponse`
succeeds.  Then the first `RoundTrip` returns a response, has called the
upstream exactly once (with `req`) and leaves a value under the key; a second
`RoundTrip` of `req` returns a response and changes nothing, so the upstream
is not called again.  `GobRoundTrip` is the decoder accepting what the encoder
wrote. -/
theorem miss_then_hit (env : Env) (m : Memory) (req : Request) (u : URL) (key : Bytes)
    (b : Bucket) (resp : Response)
    (hgob : env.GobRoundTrip)
    (hu : req.URL = some u) (hk : env.MarshalBinary u = .ok key)
    (hb : m.bdb.memory = some b) (habs : b.Get key = none)
    (hup : m.defaultRT.respond m.defaultRT.calls req = .val resp)
    (hreq : resp.Request = some req)
    (hst : (storeResponse env m.bdb resp).1 = .val ()) :
    ∃ r1 m1 b1 v r2,
      Memory.RoundTrip env m req = (.val r1, m1) ∧
      m1.defaultRT.calls = m.defaultRT.calls ++ [req] ∧
      m1.bdb.memory = some b1 ∧ b1.Get key = some v ∧
      Memory.RoundTrip env m1 req = (.val r2, m1) ∧
      (Memory.RoundTrip env m1 req).2.defaultRT.calls = m.defaultRT.calls ++ [req] := by
  have hmiss : fetchResponse env m.bdb req.URL = .val none := by
    rw [hu]; exact fetchResponse_miss env m.bdb u key b hk hb habs
  obtain ⟨rd, rq, u2, ub, v, b0, b2, -, -, hR, hU, hM, hE, -, hP, -, hmem⟩ :=
    storeResponse_val env m.bdb resp hst
  rw [hreq] at hR
  cases hR
  rw [hu] at hU
  cases hU
  rw [hk] at hM
  cases hM
  obtain ⟨rr2, hdec, -⟩ := hgob _ _ hE
  have hfirst := RoundTrip_miss_store env m req resp hmiss hup
  rw [hst] at hfirst
  have hget : b2.Get key = some v := Put_Get b0 b2 key v hP
  have hsecond := RoundTrip_hit env
    { bdb := (storeResponse env m.bdb resp).2.2
      defaultRT := { m.defaultRT with calls := m.defaultRT.calls ++ [req] } } req _
    (by rw [hu]; exact fetchResponse_hit env _ u key v b2 rr2 hk hmem hget hdec)
  refine ⟨_, _, b2, v, _, hfirst, rfl, hmem, hget, hsecond, ?_⟩
  rw [hsecond]

/-- An instance of C1: an empty bucket and an upstream that answers `reqA`. -/
theorem miss_then_hit_witness :
    ∃ r1 m1 b1 v r2,
      Memory.RoundTrip demoEnv { bdb := emptyDB, defaultRT := echoRT } reqA = (.val r1, m1) ∧
      m1.defaultRT.calls = echoRT.calls ++ [reqA] ∧
      m1.bdb.memory = some b1 ∧
      b1.Get [104, 116, 116, 112, 115, 58, 47, 47, 103, 111, 46, 100, 101, 118, 47, 97] = some v ∧
      Memory.RoundTrip demoEnv m1 reqA = (.val r2, m1) ∧
      (Memory.RoundTrip demoEnv m1 reqA).2.defaultRT.calls = echoRT.calls ++ [reqA] :=
  miss_then_hit demoEnv { bdb := emptyDB, defaultRT := echoRT } reqA urlA _ { entries := [] }
    (respTo reqA) demoEnv_gob rfl rfl rfl (by decide) rfl rfl (by decide)

/-- C2 (store/fetch round trip).  After `storeResponse` has written the response
`resp`, `fetchResponse` for the URL of `resp.Request` returns a response with
the `Status`, `StatusCode`, `Proto`, `ProtoMajor`, `ProtoMinor`, `Header`,
`Trailer` and `TransferEncoding` of `resp`, a body reader over exactly the
bytes of the body of `resp`, `ContentLength` the number of those bytes and
`Uncompressed` true.  `GobRoundTrip` is the round trip of the gob codec. -/
theorem store_fetch_round_trip (env : Env) (bdb : DB) (resp : Response) (rq : Request)
    (body : Reader)
    (hgob : env.GobRoundTrip)
    (hrq : resp.Request = some rq) (hbody : resp.Body = some body)
    (hst : (storeResponse env bdb resp).1 = .val ()) :
    ∃ r, fetchResponse env (storeResponse env bdb resp).2.2 rq.URL = .val (some r) ∧
      r.Status = resp.Status ∧ r.StatusCode = resp.StatusCode ∧ r.Proto = resp.Proto ∧
      r.ProtoMajor = resp.ProtoMajor ∧ r.ProtoMinor = resp.ProtoMinor ∧
      r.Header = resp.Header ∧ r.Trailer = resp.Trailer ∧
      r.TransferEncoding = resp.TransferEncoding ∧
      r.Body = some (NopCloser (ReadAll body).1) ∧
      ReadAll (NopCloser (ReadAll body).1) = ((ReadAll body).1, none, NopCloser []) ∧
      r.ContentLength = ((ReadAll body).1.length : Int) ∧ r.Uncompressed = true := by
  obtain ⟨rd, rq2, u, ub, v, b0, b2, hB, -, hR, hU, hM, hE, -, hP, -, hmem⟩ :=
    storeResponse_val env bdb resp hst
  rw [hrq] at hR
  cases hR
  rw [hbody] at hB
  cases hB
  obtain ⟨rr2, hdec, h1, h2, h3, h4, h5, h6, h7, h8, h9⟩ := hgob _ _ hE
  have hget : b2.Get ub = some v := Put_Get b0 b2 ub v hP
  refine ⟨_, by rw [hU]; exact fetchResponse_hit env _ u ub v b2 rr2 hM hmem hget hdec, ?_⟩
  simp only [h1, h2, h3, h4, h5, h6, h7, h8, h9, snapshot, ReadAll, NopCloser, and_self]

/-- An instance of C2: the response `respTo reqA` stored in an empty bucket. -/
theorem store_fetch_round_trip_witness :
    ∃ r, fetchResponse demoEnv (storeResponse demoEnv emptyDB (respTo reqA)).2.2 reqA.URL
        = .val (some r) ∧
      r.Status = (respTo reqA).Status ∧ r.StatusCode = (respTo reqA).StatusCode ∧
      r.Proto = (respTo reqA).Proto ∧
      r.ProtoMajor = (respTo reqA).ProtoMajor ∧ r.ProtoMinor = (respTo reqA).ProtoMinor ∧
      r.Header = (respTo reqA).Header ∧ r.Trailer = (respTo reqA).Trailer ∧
      r.TransferEncoding = (respTo reqA).TransferEncoding ∧
      r.Body = some (NopCloser [104, 101, 108, 108, 111]) ∧
      ReadAll (NopCloser [104, 101, 108, 108, 111])
        = ([104, 101, 108, 108, 111], none, NopCloser []) ∧
      r.ContentLength = 5 ∧ r.Uncompressed = true :=
  store_fetch_round_trip demoEnv emptyDB (respTo reqA) reqA
    { data := [104, 101, 108, 108, 111], err := none } demoEnv_gob rfl rfl (by decide)

/-- C3 (no negative caching).  The key of `req` is absent from the bucket and
the upstream fails.  Then `RoundTrip` returns an error and no response, the
database is what it was (so the key is still absent), the upstream has been
called once, and a second `RoundTrip` of `req` calls the upstream once more. -/
theorem no_negative_caching (env : Env) (m : Memory) (req : Request) (u : URL) (key : Bytes)
    (b : Bucket) (e : Error)
    (hu : req.URL = some u) (hk : env.MarshalBinary u = .ok key)
    (hb : m.bdb.memory = some b) (habs : b.Get key = none)
    (hup : m.defaultRT.respond m.defaultRT.calls req = .err e) :
    (Memory.RoundTrip env m req).1 = .err (.wrap "default round tripper error: " e) ∧
    (Memory.RoundTrip env m req).2.bdb = m.bdb ∧
    (Memory.RoundTrip env m req).2.defaultRT.calls = m.defaultRT.calls ++ [req] ∧
    (Memory.RoundTrip env (Memory.RoundTrip env m req).2 req).2.defaultRT.calls
      = m.defaultRT.calls ++ [req] ++ [req] := by
  have hmiss : fetchResponse env m.bdb req.URL = .val none := by
    rw [hu]; exact fetchResponse_miss env m.bdb u key b hk hb habs
  have h1 := RoundTrip_miss_err env m req e hmiss hup
  refine ⟨by rw [h1], by rw [h1], by rw [h1], ?_⟩
  have h2 := RoundTrip_miss_calls env (Memory.RoundTrip env m req).2 req
    (by rw [h1]; exact hmiss)
  rw [h2, h1]

/-- An instance of C3: an empty bucket and an upstream that is down. -/
theorem no_negative_caching_witness :
    (Memory.RoundTrip demoEnv { bdb := emptyDB, defaultRT := downRT } reqA).1
      = .err (.wrap "default round tripper error: " (.new "dial tcp: connection refused")) ∧
    (Memory.RoundTrip demoEnv { bdb := emptyDB, defaultRT := downRT } reqA).2.bdb = emptyDB ∧
    (Memory.RoundTrip demoEnv { bdb := emptyDB, defaultRT := downRT } reqA).2.defaultRT.calls
      = downRT.calls ++ [reqA] ∧
    (Memory.RoundTrip demoEnv
        (Memory.RoundTrip demoEnv { bdb := emptyDB, defaultRT := downRT } reqA).2
        reqA).2.defaultRT.calls
      = downRT.calls ++ [reqA] ++ [reqA] :=
  no_negative_caching demoEnv { bdb := emptyDB, defaultRT := downRT } reqA urlA _
    { entries := [] } (.new "dial tcp: connection refused") rfl rfl rfl (by decide) rfl

/-- C4 (a corrupt entry is a hard failure).  The key of `req` is present with
bytes the decoder rejects.  Then `fetchResponse` returns the decoder's error,
`RoundTrip` returns an error and no response and leaves the `Memory` as it was
(the upstream is not called); for an absent key `fetchResponse` returns a nil
response and a nil error. -/
theorem corrupt_entry_is_hard_failure (env : Env) (m : Memory) (req : Request) (u : URL)
    (key v : Bytes) (b : Bucket) (e : Error)
    (hu : req.URL = some u) (hk : env.MarshalBinary u = .ok key)
    (hb : m.bdb.memory = some b) (hget : b.Get key = some v)
    (hdec : env.gobDecode v = .error e) :
    fetchResponse env m.bdb req.URL = .err e ∧
    Memory.RoundTrip env m req = (.err (.wrap "fetch error: " e), m) ∧
    ∀ (bdb0 : DB) (b0 : Bucket), bdb0.memory = some b0 → b0.Get key = none →
      fetchResponse env bdb0 req.URL = .val none := by
  have hf : fetchResponse env m.bdb req.URL = .err e := by
    rw [hu]; exact fetchResponse_corrupt env m.bdb u key v b e hk hb hget hdec
  refine ⟨hf, RoundTrip_fetch_err env m req e hf, ?_⟩
  intro bdb0 b0 h0 hnone
  rw [hu]
  exact fetchResponse_miss env bdb0 u key b0 hk h0 hnone

/-- An instance of C4: garbage stored under the key of `urlA`. -/
theorem corrupt_entry_is_hard_failure_witness :
    fetchResponse demoEnv corruptDB reqA.URL = .err (.new "gob: unexpected EOF") ∧
    Memory.RoundTrip demoEnv { bdb := corruptDB, defaultRT := echoRT } reqA
      = (.err (.wrap "fetch error: " (.new "gob: unexpected EOF")),
          { bdb := corruptDB, defaultRT := echoRT }) ∧
    ∀ (bdb0 : DB) (b0 : Bucket), bdb0.memory = some b0 →
      b0.Get [104, 116, 116, 112, 115, 58, 47, 47, 103, 111, 46, 100, 101, 118, 47, 97] = none →
      fetchResponse demoEnv bdb0 reqA.URL = .val none :=
  corrupt_entry_is_hard_failure demoEnv { bdb := corruptDB, defaultRT := echoRT } reqA urlA _
    [255, 0] _ (.new "gob: unexpected EOF") rfl rfl rfl (by decide) rfl

/-- C5, the claim as stated fails: `reqA` misses, the upstream answers
with a response whose `Request` is `reqB`, `RoundTrip` succeeds, and the
bucket then holds nothing under the key of `reqA.URL` (the entry is under the
key of `reqB.URL`). -/
theorem miss_key_counterexample :
    fetchResponse demoEnv emptyDB reqA.URL = .val none ∧
    rewriteRT.respond rewriteRT.calls reqA = .val (respTo reqB) ∧
    (Memory.RoundTrip demoEnv { bdb := emptyDB, defaultRT := rewriteRT } reqA).1
      = .val (respTo reqB) ∧
    demoEnv.MarshalBinary urlA
      = .ok [104, 116, 116, 112, 115, 58, 47, 47, 103, 111, 46, 100, 101, 118, 47, 97] ∧
    demoEnv.MarshalBinary urlB
      = .ok [104, 116, 116, 112, 115, 58, 47, 47, 103, 111, 46, 100, 101, 118, 47, 98] ∧
    ∃ b1,
      (Memory.RoundTrip demoEnv { bdb := emptyDB, defaultRT := rewriteRT } reqA).2.bdb.memory
        = some b1 ∧
      b1.Get [104, 116, 116, 112, 115, 58, 47, 47, 103, 111, 46, 100, 101, 118, 47, 97] = none ∧
      b1.Get [104, 116, 116, 112, 115, 58, 47, 47, 103, 111, 46, 100, 101, 118, 47, 98]
        = some (wireRecord.put (toFields (snapshot (respTo reqB) [104, 101, 108, 108, 111]))) :=
  ⟨by decide, rfl, by decide, rfl, rfl, _, rfl, by decide, by decide⟩

/-- C5 as amended.  When `req` misses, the upstream answers with `resp` and
`RoundTrip` succeeds, the bucket holds the encoding of the response under the
key of `resp.Request.URL`; that is the key looked up whenever it equals the
key of `req.URL`. -/
theorem miss_stores_under_response_url (env : Env) (m : Memory) (req : Request) (u : URL)
    (key : Bytes) (b : Bucket) (resp r1 : Response)
    (hu : req.URL = some u) (hk : env.MarshalBinary u = .ok key)
    (hb : m.bdb.memory = some b) (habs : b.Get key = none)
    (hup : m.defaultRT.respond m.defaultRT.calls req = .val resp)
    (hok : (Memory.RoundTrip env m req).1 = .val r1) :
    ∃ rd rq u2 key2 v b1,
      resp.Body = some rd ∧ resp.Request = some rq ∧ rq.URL = some u2 ∧
      env.MarshalBinary u2 = .ok key2 ∧
      env.gobEncode (snapshot resp (ReadAll rd).1) = .ok v ∧
      (Memory.RoundTrip env m req).2.bdb.memory = some b1 ∧
      b1.Get key2 = some v ∧
      (key2 = key → b1.Get key = some v) := by
  have hmiss : fetchResponse env m.bdb req.URL = .val none := by
    rw [hu]; exact fetchResponse_miss env m.bdb u key b hk hb habs
  have h1 := RoundTrip_miss_store env m req resp hmiss hup
  rw [h1] at hok ⊢
  have hst : (storeResponse env m.bdb resp).1 = .val () := by
    cases hs : (storeResponse env m.bdb resp).1 with
    | val a => rfl
    | err e => rw [hs] at hok; simp at hok
    | panic => rw [hs] at hok; simp at hok
  obtain ⟨rd, rq, u2, ub, v, b0, b2, hB, -, hR, hU, hM, hE, -, hP, -, hmem⟩ :=
    storeResponse_val env m.bdb resp hst
  have hget : b2.Get ub = some v := Put_Get b0 b2 ub v hP
  exact ⟨rd, rq, u2, ub, v, b2, hB, hR, hU, hM, hE, hmem, hget, fun h => h ▸ hget⟩

/-- An instance of C5 as amended, at the input of the counterexample. -/
theorem miss_stores_under_response_url_witness :
    ∃ rd rq u2 key2 v b1,
      (respTo reqB).Body = some rd ∧ (respTo reqB).Request = some rq ∧ rq.URL = some u2 ∧
      demoEnv.MarshalBinary u2 = .ok key2 ∧
      demoEnv.gobEncode (snapshot (respTo reqB) (ReadAll rd).1) = .ok v ∧
      (Memory.RoundTrip demoEnv { bdb := emptyDB, defaultRT := rewriteRT } reqA).2.bdb.memory
        = some b1 ∧
      b1.Get key2 = some v ∧
      (key2 = [104, 116, 116, 112, 115, 58, 47, 47, 103, 111, 46, 100, 101, 118, 47, 97] →
        b1.Get [104, 116, 116, 112, 115, 58, 47, 47, 103, 111, 46, 100, 101, 118, 47, 97]
          = some v) :=
  miss_stores_under_response_url demoEnv { bdb := emptyDB, defaultRT := rewriteRT } reqA urlA _
    { entries := [] } (respTo reqB) (respTo reqB) rfl rfl rfl (by decide) rfl (by decide)

/-- C6, the code at the failing input: `bolt.Open` succeeds and the commit that
creates the bucket fails.  `New` returns a `Memory` and a nil error, the
bucket does not exist, and `RoundTrip` on that `Memory` panics. -/
theorem New_ignores_bucket_failure :
    ∃ m, New (.ok fullDiskDB) echoRT none = .ok m ∧ m.bdb.memory = none ∧
      (Memory.RoundTrip demoEnv m reqA).1 = .panic :=
  ⟨{ bdb := { memory := none, faults := [] }, defaultRT := echoRT }, rfl, rfl, by decide⟩

/-- C7 (a failed store drops the response).  When `req` misses, the upstream
answers with `resp` and `storeResponse` returns the error `e`, `RoundTrip`
returns `e` and no response. -/
theorem store_failure_drops_response (env : Env) (m : Memory) (req : Request) (u : URL)
    (key : Bytes) (b : Bucket) (resp : Response) (e : Error)
    (hu : req.URL = some u) (hk : env.MarshalBinary u = .ok key)
    (hb : m.bdb.memory = some b) (habs : b.Get key = none)
    (hup : m.defaultRT.respond m.defaultRT.calls req = .val resp)
    (hst : (storeResponse env m.bdb resp).1 = .err e) :
    (Memory.RoundTrip env m req).1 = .err e := by
  have hmiss : fetchResponse env m.bdb req.URL = .val none := by
    rw [hu]; exact fetchResponse_miss env m.bdb u key b hk hb habs
  rw [RoundTrip_miss_store env m req resp hmiss hup, hst]

/-- An instance of C7: the body of the upstream response fails to read. -/
theorem store_failure_drops_response_witness :
    (Memory.RoundTrip demoEnv { bdb := emptyDB, defaultRT := brokenRT } reqA).1
      = .err (.wrap "unable to read response body: " (.new "unexpected EOF")) :=
  store_failure_drops_response demoEnv { bdb := emptyDB, defaultRT := brokenRT } reqA urlA _
    { entries := [] } (brokenBody reqA) _ rfl rfl rfl (by decide) rfl (by decide)

/-- C8 (transparency on a miss).  When `req` misses, the upstream answers with
`resp` and `storeResponse` succeeds, `RoundTrip` returns `resp` with every
field but `Body` as it was and with `Body` a fresh, unread reader over all the
bytes that were in the upstream body; reading it to the end gives those bytes
and no error.  The reader the upstream handed over has been drained by the
call (reading it again gives no bytes), and unless the body was empty it is
not the body of the response returned. -/
theorem miss_is_transparent (env : Env) (m : Memory) (req : Request) (u : URL)
    (key : Bytes) (b : Bucket) (resp : Response) (body : Reader)
    (hu : req.URL = some u) (hk : env.MarshalBinary u = .ok key)
    (hb : m.bdb.memory = some b) (habs : b.Get key = none)
    (hup : m.defaultRT.respond m.defaultRT.calls req = .val resp)
    (hbody : resp.Body = some body)
    (hst : (storeResponse env m.bdb resp).1 = .val ()) :
    (Memory.RoundTrip env m req).1
      = .val { resp with Body := some (NopCloser (ReadAll body).1) } ∧
    (∀ r, (Memory.RoundTrip env m req).1 = .val r →
      ∃ rd, r.Body = some rd ∧ (ReadAll rd).1 = (ReadAll body).1 ∧ (ReadAll rd).2.1 = none) ∧
    (ReadAll (ReadAll body).2.2).1 = [] ∧
    ((ReadAll body).1 ≠ [] →
      (Memory.RoundTrip env m req).1
        ≠ .val { resp with Body := some (Reader.Close (ReadAll body).2.2) }) := by
  have hmiss : fetchResponse env m.bdb req.URL = .val none := by
    rw [hu]; exact fetchResponse_miss env m.bdb u key b hk hb habs
  obtain ⟨rd, -, -, -, -, -, -, hB, -, -, -, -, -, -, -, hresp, -⟩ :=
    storeResponse_val env m.bdb resp hst
  rw [hbody] at hB
  cases hB
  have hrt : (Memory.RoundTrip env m req).1
      = .val { resp with Body := some (NopCloser (ReadAll body).1) } := by
    rw [RoundTrip_miss_store env m req resp hmiss hup, hst, hresp]
    rfl
  refine ⟨hrt, ?_, rfl, ?_⟩
  · intro r hr
    rw [hrt] at hr
    cases hr
    exact ⟨_, rfl, rfl, rfl⟩
  · intro hne heq
    rw [hrt] at heq
    have hbodies := congrArg (fun x => match x with
      | Ret.val r => r.Body.map Reader.data
      | _ => none) heq
    simp only [NopCloser, ReadAll, Reader.Close, Option.map_some', Option.some.injEq] at hbodies
    exact hne hbodies

/-- An instance of C8: `reqA` against an empty bucket, the upstream body `hello`. -/
theorem miss_is_transparent_witness :
    (Memory.RoundTrip demoEnv { bdb := emptyDB, defaultRT := echoRT } reqA).1
      = .val { respTo reqA with Body := some (NopCloser [104, 101, 108, 108, 111]) } ∧
    (∀ r, (Memory.RoundTrip demoEnv { bdb := emptyDB, defaultRT := echoRT } reqA).1 = .val r →
      ∃ rd, r.Body = some rd ∧ (ReadAll rd).1 = [104, 101, 108, 108, 111] ∧
        (ReadAll rd).2.1 = none) ∧
    (ReadAll (ReadAll { data := [104, 101, 108, 108, 111], err := none }).2.2).1 = [] ∧
    (([104, 101, 108, 108, 111] : Bytes) ≠ [] →
      (Memory.RoundTrip demoEnv { bdb := emptyDB, defaultRT := echoRT } reqA).1
        ≠ .val { respTo reqA with
            Body := some (Reader.Close
              (ReadAll { data := [104, 101, 108, 108, 111], err := none }).2.2) }) :=
  miss_is_transparent demoEnv { bdb := emptyDB, defaultRT := echoRT } reqA urlA _
    { entries := [] } (respTo reqA) { data := [104, 101, 108, 108, 111], err := none }
    rfl rfl rfl (by decide) rfl rfl (by decide)

/-- C9 (`AddMemory` replaces the transport).  When `AddMemory` returns a nil
error, the client it returns is the client given with `Transport` set to a
`*Memory` whose upstream is the previous `Transport`, or `DefaultTransport`
when that was nil, and with every other field as it was.  When it returns an
error, the client it returns is the client given, unchanged. -/
theorem AddMemory_replaces_transport (env : Env) (opened : Except Error DB)
    (DefaultTransport : RoundTripper) (client : Client) :
    ((AddMemory env opened DefaultTransport client).2 = none →
      ∃ m, (AddMemory env opened DefaultTransport client).1
          = { client with Transport := some (.memory m) } ∧
        m.defaultRT = (match client.Transport with
          | none => DefaultTransport
          | some t => t.upstream env)) ∧
    (∀ e, (AddMemory env opened DefaultTransport client).2 = some e →
      (AddMemory env opened DefaultTransport client).1 = client) := by
  cases opened with
  | error e0 =>
    refine ⟨fun h => ?_, fun e _ => rfl⟩
    simp [AddMemory, New] at h
  | ok db =>
    refine ⟨fun _ => ⟨_, rfl, ?_⟩, fun e h => ?_⟩
    · cases client.Transport <;> rfl
    · simp [AddMemory, New] at h

/-- An instance of C9: a client without a transport, store opened and not. -/
theorem AddMemory_replaces_transport_witness :
    (∃ m, (AddMemory demoEnv (.ok emptyDB) echoRT plainClient).1
        = { plainClient with Transport := some (.memory m) } ∧ m.defaultRT = echoRT) ∧
    (AddMemory demoEnv (.error (.new "timeout")) echoRT plainClient).1 = plainClient :=
  ⟨(AddMemory_replaces_transport demoEnv (.ok emptyDB) echoRT plainClient).1 rfl,
   (AddMemory_replaces_transport demoEnv (.error (.new "timeout")) echoRT plainClient).2 _ rfl⟩

/-- C10 (the key is a function of the URL alone).  Two requests with the same
URL, whatever their other fields, derive the same key bytes and get the same
result from the lookup; on a hit `RoundTrip` returns the same stored response
to both and leaves the `Memory` as it was, the upstream not called. -/
theorem key_is_function_of_url (env : Env) (m : Memory) (req1 req2 : Request)
    (h : req1.URL = req2.URL) :
    req1.URL.map env.MarshalBinary = req2.URL.map env.MarshalBinary ∧
    fetchResponse env m.bdb req1.URL = fetchResponse env m.bdb req2.URL ∧
    ∀ r, fetchResponse env m.bdb req1.URL = .val (some r) →
      Memory.RoundTrip env m req1 = (.val r, m) ∧ Memory.RoundTrip env m req2 = (.val r, m) := by
  refine ⟨by rw [h], by rw [h], fun r hr => ⟨RoundTrip_hit env m req1 r hr, ?_⟩⟩
  exact RoundTrip_hit env m req2 r (h ▸ hr)

/-- An instance of C10: a GET and a POST for `urlA` against a bucket that holds `urlA`. -/
theorem key_is_function_of_url_witness :
    reqA.URL.map demoEnv.MarshalBinary = postA.URL.map demoEnv.MarshalBinary ∧
    fetchResponse demoEnv storedDB reqA.URL = fetchResponse demoEnv storedDB postA.URL ∧
    ∀ r, fetchResponse demoEnv storedDB reqA.URL = .val (some r) →
      Memory.RoundTrip demoEnv { bdb := storedDB, defaultRT := echoRT } reqA
        = (.val r, { bdb := storedDB, defaultRT := echoRT }) ∧
      Memory.RoundTrip demoEnv { bdb := storedDB, defaultRT := echoRT } postA
        = (.val r, { bdb := storedDB, defaultRT := echoRT }) :=
  key_is_function_of_url demoEnv { bdb := storedDB, defaultRT := echoRT } reqA postA rfl

end Remember
